import Mathlib

/-
  Verification of the check-domain enrichment pipeline (src/index.js).

  The JavaScript source is shallowly embedded below. Network effects are
  modelled as explicit oracle parameters:
  - dnsOracle : the DNS resolver (dns.lookup), returning an address or a failure;
  - probe : the reachability probe (ping.sys.probe);
  - HttpOutcome : the outcome seen by a request callback — either a transport
    error or a response with a status code and a parsed body;
  - serpSearch : the index-counting service (serp.search with numberOfResults);
  - fromNow, toFixedAge, tldOf : pure rendering helpers from external libraries
    (moment fromNow, Number toFixed on the age in years, urijs tld), passed as
    parameters because no claim depends on their concrete output.

  JavaScript values that can be a string, a number, a boolean or undefined are
  modelled by JsVal; a number that can be NaN by JsNum.  Truthiness tests in
  the source are modelled explicitly: an absent or empty string option is
  falsy, the number 0 is falsy, undefined is falsy.
-/

namespace CheckDomain

/-- A JavaScript value as stored in the result records: string, number,
boolean or undefined. -/
inductive JsVal where
  | str : String → JsVal
  | num : Int → JsVal
  | bool : Bool → JsVal
  | undefinedVal : JsVal
deriving DecidableEq

/-- A JavaScript number that may be NaN (subtraction with undefined). -/
inductive JsNum where
  | int : Int → JsNum
  | nan : JsNum
deriving DecidableEq

/-- True when the JsVal is a JavaScript number. -/
def JsVal.isNumeric : JsVal → Bool
  | .num _ => true
  | _ => false

/-- Truthiness of an optional string: absent and the empty string are falsy. -/
def jsTruthyOptStr : Option String → Bool
  | some s => s != ""
  | none => false

/-- Truthiness of an optional number: absent and 0 are falsy. -/
def jsTruthyOptInt : Option Int → Bool
  | some n => n != 0
  | none => false

/-- JavaScript subtraction g - p where p may be undefined: undefined gives NaN. -/
def jsSub (g : Int) (p : Option Int) : JsNum :=
  match p with
  | some n => .int (g - n)
  | none => .nan

/-- Structural list splitter used to embed the JavaScript String.split.
The fuel argument makes the recursion structural; it is instantiated with
more fuel than characters so it never runs out for a nonempty separator. -/
def splitOnListAux (sep : List Char) : Nat → List Char → List Char → List (List Char)
  | _, cur, [] => [cur.reverse]
  | 0, cur, l => [cur.reverse ++ l]
  | Nat.succ fuel, cur, c :: cs =>
    if sep.isPrefixOf (c :: cs) then
      cur.reverse :: splitOnListAux sep fuel [] (List.drop sep.length (c :: cs))
    else
      splitOnListAux sep fuel (c :: cur) cs

/-- Embedding of the JavaScript s.split(sep) for a nonempty separator. -/
def jsSplit (s sep : String) : List String :=
  (splitOnListAux sep.toList (s.toList.length + 1) [] s.toList).map (fun l => String.mk l)

/-- Does sub occur inside l (used to embed indexOf(...) > -1). -/
def isInfixChars (sub : List Char) : List Char → Bool
  | [] => sub.isEmpty
  | c :: cs => sub.isPrefixOf (c :: cs) || isInfixChars sub cs

/-- Embedding of the JavaScript s.indexOf(sub) > -1. -/
def jsIndexOfFound (s sub : String) : Bool :=
  isInfixChars sub.toList s.toList

/-- Constants of the source file. -/
def REDEMPTION_PERIOD : String := "redemptionPeriod"

def PENDING_DELETE : String := "pendingDelete"

def INVALID_DOMAIN_MESSAGE : String := "Unable to retrieve whois record for"

def MISSING_WHOIS_DATA_MESSAGE : String := "MISSING_WHOIS_DATA"

/-- The record built by lookup: domain, whether the www prefix was used,
whether DNS resolution succeeded, and the address when it did. -/
structure DnsData where
  domain : String
  withWWW : Bool
  isDNSFound : Bool
  ip : Option String
deriving DecidableEq

/-- DnsData extended by the liveness flag set by getPing. -/
structure PingData extends DnsData where
  isAlive : Bool
deriving DecidableEq

/-- The Majestic record threaded through the pipeline.  The sentinels and the
gating checks only use TrustFlow and ResultCode, so the embedding keeps
exactly those two fields of DataTables.Results.Data[0]. -/
structure MajesticRec where
  TrustFlow : Int
  ResultCode : String
deriving DecidableEq

/-- The record threaded into the parallel stage: ping data plus the majestic
field, which is undefined (none) until getMajesticData sets it. -/
structure GeneralInfo extends PingData where
  majestic : Option MajesticRec
deriving DecidableEq

/-- whoisxmlapi credential. -/
structure WhoisCred where
  user : String
  password : String
deriving DecidableEq

/-- The options object of one check (the CheckRequest). -/
structure Options where
  domain : String
  majecticKey : Option String
  noCheckIfDNSResolve : Bool
  minTrustFlow : Option Int
  whois : Option WhoisCred
  semrushKey : Option String
  semrushDB : Option String
deriving DecidableEq

/-- What a request callback observes: a transport error, or a response with a
status code and a parsed body. -/
inductive HttpOutcome (β : Type) where
  | transportError : String → HttpOutcome β
  | response : Nat → β → HttpOutcome β
deriving DecidableEq

/-- WhoisRecord.registryData of the provider body. -/
structure RegistryData where
  status : Option String
deriving DecidableEq

/-- WhoisRecord of the provider body. -/
structure WhoisRecordData where
  dataError : Option String
  registryData : Option RegistryData
  createdDate : Option String
  expiresDate : Option String
  estimatedDomainAge : Option Int
deriving DecidableEq

/-- The parsed JSON body of the whoisxmlapi response: an optional
ErrorMessage.msg and an optional WhoisRecord. -/
structure WhoisBody where
  errorMessageMsg : Option String
  whoisRecord : Option WhoisRecordData
deriving DecidableEq

/-- The whois result object: the derived fields added by getWhoisData.
status is only set on the success path when registry status data is present. -/
structure WhoisInfo where
  isValidDomain : JsVal
  missingData : JsVal
  status : Option String
  isPendingDelete : JsVal
  isRedemptionPeriod : JsVal
  createdDate : JsVal
  expiresDate : JsVal
  expiredWaitingTime : JsVal
  estimatedDomainAge : JsVal
deriving DecidableEq

/-- The sentinel whois record of the source (emptyWhoisData). Note that
missingData holds the string true, not no-data. -/
def emptyWhoisData : WhoisInfo :=
  { missingData := .str "true"
    isValidDomain := .str "no-data"
    status := none
    isPendingDelete := .str "no-data"
    isRedemptionPeriod := .str "no-data"
    createdDate := .str "no-data"
    expiresDate := .str "no-data"
    expiredWaitingTime := .str "no-data"
    estimatedDomainAge := .str "no-data" }

/-- The semrush result object.  The source stores the raw substrings of the
response row, so the fields are JsVal, not bare numbers.  The source spells
the second field oganicKeywords. -/
structure SemrushInfo where
  rank : JsVal
  oganicKeywords : JsVal
  organicTraffic : JsVal
  organicCost : JsVal
  adwordsKeywords : JsVal
  adwordsTraffic : JsVal
  adwordsCost : JsVal
deriving DecidableEq

/-- The default semrush record of the source (emptySemrush). -/
def emptySemrush : SemrushInfo :=
  { rank := .num (-1)
    oganicKeywords := .num 0
    organicTraffic := .num 0
    organicCost := .num 0
    adwordsKeywords := .num 0
    adwordsTraffic := .num 0
    adwordsCost := .num 0 }

/-- List index as JavaScript sees it: out of range gives undefined. -/
def jsAt (l : List String) (i : Nat) : JsVal :=
  match l[i]? with
  | some s => .str s
  | none => .undefinedVal

/-- Embedding of lookup: one dns.lookup call on the bare or www-prefixed
name; the callback always passes a null error. -/
def lookup (dnsOracle : String → Option String) (domain : String) (withWWW : Bool) : DnsData :=
  match dnsOracle (if withWWW then "www." ++ domain else domain) with
  | none => { domain := domain, withWWW := withWWW, isDNSFound := false, ip := none }
  | some address => { domain := domain, withWWW := withWWW, isDNSFound := true, ip := some address }

/-- Embedding of getIp: bare lookup first, www lookup only if the bare one
found nothing; never an error. -/
def getIp (dnsOracle : String → Option String) (domain : String) : Except String DnsData :=
  let first := lookup dnsOracle domain false
  if first.isDNSFound then .ok first else .ok (lookup dnsOracle domain true)

/-- The DNS names queried by getIp, in order. -/
def getIpQueries (dnsOracle : String → Option String) (domain : String) : List String :=
  let first := lookup dnsOracle domain false
  if first.isDNSFound then [domain] else [domain, "www." ++ domain]

/-- Embedding of getPing: no probe when DNS resolution failed, otherwise one
probe whose boolean outcome is recorded; never an error.  The Nat component
counts the probes issued. -/
def getPing (probe : Option String → Bool) (dnsInfo : DnsData) : Except String (PingData × Nat) :=
  if !dnsInfo.isDNSFound then
    .ok ({ toDnsData := dnsInfo, isAlive := false }, 0)
  else
    .ok ({ toDnsData := dnsInfo, isAlive := probe dnsInfo.ip }, 1)

/-- The dummy majestic record of the source when no majecticKey is set. -/
def noMajesticKeyData : MajesticRec :=
  { TrustFlow := 0, ResultCode := "NO-MAJESTIC-KEY" }

/-- The majestic record of the source when the check is skipped because DNS
resolved; the source spells the code with a zero digit: N0-CHECK-DNS-RESOLVED. -/
def noCheckDnsResolvedData : MajesticRec :=
  { TrustFlow := 0, ResultCode := "N0-CHECK-DNS-RESOLVED" }

/-- The skip-deep-checks gate shared by the majestic, whois and semrush
fetchers: noCheckIfDNSResolve is set and DNS resolved. -/
def skipDnsGate (gi : GeneralInfo) (options : Options) : Bool :=
  options.noCheckIfDNSResolve && gi.isDNSFound

/-- Embedding of getMajesticData.  With a truthy key: skip gate first, then
the request; a transport error or a non-200 status is passed to the callback
as a fatal error.  Without a truthy key: the dummy record. -/
def getMajesticData (gi : GeneralInfo) (options : Options)
    (out : HttpOutcome MajesticRec) : Except String GeneralInfo :=
  if jsTruthyOptStr options.majecticKey then
    if skipDnsGate gi options then
      .ok { gi with majestic := some noCheckDnsResolvedData }
    else
      match out with
      | .transportError e => .error e
      | .response code body =>
        if code == 200 then
          .ok { gi with majestic := some body }
        else
          .error "Impossible to get the Majestic data, check your credential"
  else
    .ok { gi with majestic := some noMajesticKeyData }

/-- The minimum-trust-flow gate shared by the whois and semrush fetchers:
minTrustFlow truthy and the TrustFlow of the majestic record below it.
Reading TrustFlow when the majestic field is undefined is a TypeError,
modelled by none. -/
def trustFlowGate (gi : GeneralInfo) (options : Options) : Option Bool :=
  match options.minTrustFlow with
  | some t =>
    if t != 0 then
      match gi.majestic with
      | some m => some (decide (m.TrustFlow < t))
      | none => none
    else some false
  | none => some false

/-- Truthiness of the whois credential: the whois object, its user and its
password must all be truthy. -/
def whoisCredOk (options : Options) : Bool :=
  match options.whois with
  | some cred => cred.user != "" && cred.password != ""
  | none => false

/-- An optional string copied when truthy, else the no-data sentinel. -/
def jsStrOrNoData : Option String → JsVal
  | some s => if s != "" then .str s else .str "no-data"
  | none => .str "no-data"

/-- The normalization getWhoisData applies to a parsed 200 response body. -/
def parseWhois (fromNow : String → String) (toFixedAge : Int → String)
    (body : WhoisBody) : WhoisInfo :=
  let isValidDomain : JsVal :=
    match body.errorMessageMsg with
    | some msg => if jsIndexOfFound msg INVALID_DOMAIN_MESSAGE then .bool false else .bool true
    | none => .bool true
  let missingData : JsVal :=
    match body.whoisRecord with
    | some wr => .bool (wr.dataError == some MISSING_WHOIS_DATA_MESSAGE)
    | none => .bool false
  let statusTriple : Option String × JsVal × JsVal :=
    match body.whoisRecord with
    | some wr =>
      match wr.registryData with
      | some rd =>
        match rd.status with
        | some st =>
          if st != "" then
            (some st, .bool (jsIndexOfFound st PENDING_DELETE),
              .bool (jsIndexOfFound st REDEMPTION_PERIOD))
          else (none, .str "no-data", .str "no-data")
        | none => (none, .str "no-data", .str "no-data")
      | none => (none, .str "no-data", .str "no-data")
    | none => (none, .str "no-data", .str "no-data")
  let createdDate : JsVal :=
    match body.whoisRecord with
    | some wr => jsStrOrNoData wr.createdDate
    | none => .str "no-data"
  let expiresPair : JsVal × JsVal :=
    match body.whoisRecord with
    | some wr =>
      match wr.expiresDate with
      | some d => if d != "" then (.str d, .str (fromNow d)) else (.str "no-data", .str "no-data")
      | none => (.str "no-data", .str "no-data")
    | none => (.str "no-data", .str "no-data")
  let estimatedDomainAge : JsVal :=
    match body.whoisRecord with
    | some wr =>
      match wr.estimatedDomainAge with
      | some n => if n != 0 then .str (toFixedAge n) else .str "no-data"
      | none => .str "no-data"
    | none => .str "no-data"
  { isValidDomain := isValidDomain
    missingData := missingData
    status := statusTriple.1
    isPendingDelete := statusTriple.2.1
    isRedemptionPeriod := statusTriple.2.2
    createdDate := createdDate
    expiresDate := expiresPair.1
    expiredWaitingTime := expiresPair.2
    estimatedDomainAge := estimatedDomainAge }

/-- The request callback of getWhoisData: a transport error and a non-200
status both degrade to the sentinel record; a 200 response is normalized.
Never an error. -/
def whoisFetch (fromNow : String → String) (toFixedAge : Int → String)
    (out : HttpOutcome WhoisBody) : Except String WhoisInfo :=
  match out with
  | .transportError _ => .ok emptyWhoisData
  | .response code body =>
    if code == 200 then .ok (parseWhois fromNow toFixedAge body)
    else .ok emptyWhoisData

/-- Embedding of getWhoisData: skip gate, trust-flow gate, credential check,
then the request.  none models the TypeError of reading TrustFlow from an
undefined majestic field. -/
def getWhoisData (fromNow : String → String) (toFixedAge : Int → String)
    (gi : GeneralInfo) (options : Options)
    (out : HttpOutcome WhoisBody) : Option (Except String WhoisInfo) :=
  if skipDnsGate gi options then some (.ok emptyWhoisData)
  else
    match trustFlowGate gi options with
    | none => none
    | some true => some (.ok emptyWhoisData)
    | some false =>
      if whoisCredOk options then some (whoisFetch fromNow toFixedAge out)
      else some (.ok emptyWhoisData)

/-- Embedding of convertSemrush: split the response on CR-LF; fewer than two
lines gives the default record; otherwise the second line is split on the
semicolon and positions 1 to 7 are stored as raw substrings. -/
def convertSemrush (semrushResponse : String) : SemrushInfo :=
  match jsSplit semrushResponse "\r\n" with
  | _ :: row :: _ =>
    let response := jsSplit row ";"
    { rank := jsAt response 1
      oganicKeywords := jsAt response 2
      organicTraffic := jsAt response 3
      organicCost := jsAt response 4
      adwordsKeywords := jsAt response 5
      adwordsTraffic := jsAt response 6
      adwordsCost := jsAt response 7 }
  | _ => emptySemrush

/-- The request callback of getSemrushData: a transport error and a non-200
status are fatal; a 200 response is parsed. -/
def semrushFetch (out : HttpOutcome String) : Except String SemrushInfo :=
  match out with
  | .transportError e => .error e
  | .response code body =>
    if code == 200 then .ok (convertSemrush body)
    else .error "Impossible to get the semrush data, check your credential"

/-- Embedding of getSemrushData: credential check first, then the skip gate,
then the trust-flow gate, then the request.  none models the TypeError of
reading TrustFlow from an undefined majestic field. -/
def getSemrushData (gi : GeneralInfo) (options : Options)
    (out : HttpOutcome String) : Option (Except String SemrushInfo) :=
  if jsTruthyOptStr options.semrushKey then
    if skipDnsGate gi options then some (.ok emptySemrush)
    else
      match trustFlowGate gi options with
      | none => none
      | some true => some (.ok emptySemrush)
      | some false => some (semrushFetch out)
  else some (.ok emptySemrush)

/-- The query sent to the index-counting service. -/
def indexQuery (domain : String) (fromPrimaryIndex : Bool) : String :=
  "site:" ++ domain ++ (if fromPrimaryIndex then " /&" else "")

/-- Embedding of getIndexedPages: one serp search returning a count, whose
failure is passed through as a fatal error. -/
def getIndexedPages (serpSearch : String → Except String Int) (options : Options)
    (fromPrimaryIndex : Bool) : Except String Int :=
  serpSearch (indexQuery options.domain fromPrimaryIndex)

/-- The final merged record. -/
structure FinalData extends GeneralInfo where
  whois : WhoisInfo
  isAvailable : Bool
  semrush : SemrushInfo
  primaryIndex : Option Int
  googleIndex : Option Int
  secondaryIndex : Option JsNum
  tld : String
deriving DecidableEq

/-- The availability derivation of the merge step. -/
def deriveIsAvailable (isDNSFound : Bool) (whois : WhoisInfo) : Bool :=
  if isDNSFound then false
  else
    match whois.status with
    | some st => if st != "" then st == "AVAILABLE" else false
    | none => false

/-- The merge step of getOtherMetrics on the four parallel results.  The
index counts are guarded by JavaScript truthiness: a count of 0 is falsy, so
primaryIndex stays undefined for a zero primary count and the whole
googleIndex and secondaryIndex assignment is skipped for a zero google
count; subtracting an undefined primaryIndex gives NaN. -/
def mergeMetrics (tldOf : String → String) (gi : GeneralInfo) (options : Options)
    (whois : WhoisInfo) (semrush : SemrushInfo) (p g : Int) : FinalData :=
  let primaryIndex : Option Int := if p != 0 then some p else none
  let googleIndex : Option Int := if g != 0 then some g else none
  let secondaryIndex : Option JsNum := if g != 0 then some (jsSub g primaryIndex) else none
  { toGeneralInfo := gi
    whois := whois
    isAvailable := deriveIsAvailable gi.isDNSFound whois
    semrush := semrush
    primaryIndex := primaryIndex
    googleIndex := googleIndex
    secondaryIndex := secondaryIndex
    tld := tldOf options.domain }

/-- Embedding of getOtherMetrics: the parallel group of whois, semrush and
the two index counts; any fatal error of the group fails the stage, a
TypeError in a task (none) crashes it, and otherwise the results are merged. -/
def getOtherMetrics (fromNow : String → String) (toFixedAge : Int → String)
    (tldOf : String → String) (gi : GeneralInfo) (options : Options)
    (whoisOut : HttpOutcome WhoisBody) (semrushOut : HttpOutcome String)
    (primaryRes googleRes : Except String Int) : Option (Except String FinalData) :=
  match getWhoisData fromNow toFixedAge gi options whoisOut,
      getSemrushData gi options semrushOut with
  | some whoisRes, some semrushRes =>
    some (match whoisRes, semrushRes, primaryRes, googleRes with
      | .ok w, .ok s, .ok p, .ok g => .ok (mergeMetrics tldOf gi options w s p g)
      | .error e, _, _, _ => .error e
      | _, .error e, _, _ => .error e
      | _, _, .error e, _ => .error e
      | _, _, _, .error e => .error e)
  | _, _ => none

/-- Embedding of the exported check function: the waterfall of getIp,
getPing, getMajesticData and getOtherMetrics, stopping at the first error. -/
def check (dnsOracle : String → Option String) (probe : Option String → Bool)
    (majesticOut : HttpOutcome MajesticRec) (whoisOut : HttpOutcome WhoisBody)
    (semrushOut : HttpOutcome String) (serpSearch : String → Except String Int)
    (fromNow : String → String) (toFixedAge : Int → String) (tldOf : String → String)
    (options : Options) : Option (Except String FinalData) :=
  match getIp dnsOracle options.domain with
  | .error e => some (.error e)
  | .ok dnsInfo =>
    match getPing probe dnsInfo with
    | .error e => some (.error e)
    | .ok (pingInfo, _) =>
      match getMajesticData { toPingData := pingInfo, majestic := none } options majesticOut with
      | .error e => some (.error e)
      | .ok gi =>
        getOtherMetrics fromNow toFixedAge tldOf gi options whoisOut semrushOut
          (getIndexedPages serpSearch options true) (getIndexedPages serpSearch options false)

/-- Fixtures: concrete oracles and inputs used to instantiate the theorems. -/
def fNow : String → String := fun _ => "in 2 months"

def fAge : Int → String := fun _ => "1.50"

def fTld : String → String := fun _ => "com"

def dnsNone : String → Option String := fun _ => none

def probeFalse : Option String → Bool := fun _ => false

def serpTwo : String → Except String Int := fun _ => .ok 2

def dnsUnresolvedData : DnsData :=
  { domain := "example-test123.com", withWWW := true, isDNSFound := false, ip := none }

def giPlain : GeneralInfo :=
  { domain := "example-test123.com", withWWW := true, isDNSFound := false, ip := none,
    isAlive := false, majestic := none }

def giRes : GeneralInfo :=
  { domain := "example.com", withWWW := false, isDNSFound := true,
    ip := some "93.184.216.34", isAlive := true, majestic := none }

def giNoKey : GeneralInfo := { giPlain with majestic := some noMajesticKeyData }

def optsPlain : Options :=
  { domain := "example-test123.com", majecticKey := none, noCheckIfDNSResolve := false,
    minTrustFlow := none, whois := none, semrushKey := none, semrushDB := none }

def optsSkip : Options := { optsPlain with noCheckIfDNSResolve := true }

def optsMaj : Options := { optsPlain with majecticKey := some "majestic-key" }

def wbEmpty : WhoisBody := { errorMessageMsg := none, whoisRecord := none }

def mbZero : MajesticRec := { TrustFlow := 0, ResultCode := "OK" }

def c1data : FinalData := mergeMetrics fTld giPlain optsPlain emptyWhoisData emptySemrush 1 2

def c2data : FinalData := mergeMetrics fTld giPlain optsPlain emptyWhoisData emptySemrush 0 5

def c6response : String := "Dn;Rk;Or;Ot;Oc;Ad;At;Ac\r\nexample.com;9;8;7;6;5;4;3"

/-- Helper: the www-prefixed name differs from the bare name. -/
theorem www_prefix_ne (domain : String) : "www." ++ domain ≠ domain := by
  intro h
  have hl := congrArg String.length h
  rw [String.length_append] at hl
  have h4 : "www.".length = 4 := rfl
  rw [h4] at hl
  omega

/-- C7: for every domain, the Address Resolver first attempts resolution of
the bare domain; the www-prefixed attempt is made if and only if the bare
attempt fails; the result has resolved=false only when both attempts fail;
and a resolution failure is never reported as an error to the pipeline. -/
theorem c7_resolver (dnsOracle : String → Option String) (domain : String) :
    (∃ d, getIp dnsOracle domain = .ok d ∧
      (d.isDNSFound = false ↔
        dnsOracle domain = none ∧ dnsOracle ("www." ++ domain) = none)) ∧
    (getIpQueries dnsOracle domain).head? = some domain ∧
    (("www." ++ domain) ∈ getIpQueries dnsOracle domain ↔ dnsOracle domain = none) := by
  cases h1 : dnsOracle domain with
  | none =>
    cases h2 : dnsOracle ("www." ++ domain) with
    | none => simp [getIp, getIpQueries, lookup, h1, h2]
    | some a => simp [getIp, getIpQueries, lookup, h1, h2]
  | some a =>
    refine ⟨⟨lookup dnsOracle domain false, ?_, ?_⟩, ?_, ?_⟩
    · simp [getIp, lookup, h1]
    · simp [lookup, h1]
    · simp [getIpQueries, lookup, h1]
    · simp [getIpQueries, lookup, h1, www_prefix_ne domain]

/-- C8: for every AddressInfo with resolved=false, the Liveness Prober
returns isAlive=false without issuing a probe; for every resolved
AddressInfo it issues exactly one probe and reports its boolean outcome; and
a probe outcome is never reported as a pipeline error. -/
theorem c8_prober (probe : Option String → Bool) (dnsInfo : DnsData) :
    (dnsInfo.isDNSFound = false →
      getPing probe dnsInfo = .ok ({ toDnsData := dnsInfo, isAlive := false }, 0)) ∧
    (dnsInfo.isDNSFound = true →
      getPing probe dnsInfo = .ok ({ toDnsData := dnsInfo, isAlive := probe dnsInfo.ip }, 1)) := by
  constructor <;> intro h <;> simp [getPing, h]

/-- C8 witness: an unresolved record gets isAlive=false with zero probes. -/
theorem c8_witness :
    getPing probeFalse dnsUnresolvedData =
      .ok ({ toDnsData := dnsUnresolvedData, isAlive := false }, 0) :=
  (c8_prober probeFalse dnsUnresolvedData).1 rfl

/-- Helper: any ok result of getOtherMetrics is the merge of ok results of
the four parallel tasks. -/
theorem getOtherMetrics_ok_inv (fromNow : String → String) (toFixedAge : Int → String)
    (tldOf : String → String) (gi : GeneralInfo) (options : Options)
    (whoisOut : HttpOutcome WhoisBody) (semrushOut : HttpOutcome String)
    (primaryRes googleRes : Except String Int) (d : FinalData)
    (h : getOtherMetrics fromNow toFixedAge tldOf gi options whoisOut semrushOut
      primaryRes googleRes = some (.ok d)) :
    ∃ w s p g, getWhoisData fromNow toFixedAge gi options whoisOut = some (.ok w) ∧
      getSemrushData gi options semrushOut = some (.ok s) ∧
      primaryRes = .ok p ∧ googleRes = .ok g ∧
      d = mergeMetrics tldOf gi options w s p g := by
  unfold getOtherMetrics at h
  cases hw : getWhoisData fromNow toFixedAge gi options whoisOut with
  | none =>
    rw [hw] at h
    simp at h
  | some wr =>
    cases hs : getSemrushData gi options semrushOut with
    | none =>
      rw [hw, hs] at h
      simp at h
    | some sr =>
      rw [hw, hs] at h
      cases wr with
      | error e => simp at h
      | ok w =>
      cases sr with
      | error e => simp at h
      | ok s =>
      cases primaryRes with
      | error e => simp at h
      | ok p =>
      cases googleRes with
      | error e => simp at h
      | ok g =>
        simp at h
        exact ⟨w, s, p, g, rfl, rfl, rfl, rfl, h.symm⟩

/-- Helper: projections of the merge step. -/
theorem mergeMetrics_isAvailable (tldOf : String → String) (gi : GeneralInfo)
    (options : Options) (w : WhoisInfo) (s : SemrushInfo) (p g : Int) :
    (mergeMetrics tldOf gi options w s p g).isAvailable =
      deriveIsAvailable gi.isDNSFound w := rfl

/-- Helper: the merge step keeps the DNS flag of the threaded record. -/
theorem mergeMetrics_isDNSFound (tldOf : String → String) (gi : GeneralInfo)
    (options : Options) (w : WhoisInfo) (s : SemrushInfo) (p g : Int) :
    (mergeMetrics tldOf gi options w s p g).isDNSFound = gi.isDNSFound := rfl

/-- Helper: the merge step stores the whois result unchanged. -/
theorem mergeMetrics_whois (tldOf : String → String) (gi : GeneralInfo)
    (options : Options) (w : WhoisInfo) (s : SemrushInfo) (p g : Int) :
    (mergeMetrics tldOf gi options w s p g).whois = w := rfl

/-- C1: for every completed check, the merged isAvailable satisfies: DNS
resolved gives false regardless of status; DNS failed with status AVAILABLE
gives true; DNS failed with any other status or no status gives false. -/
theorem c1_isAvailable_truth_table (fromNow : String → String) (toFixedAge : Int → String)
    (tldOf : String → String) (gi : GeneralInfo) (options : Options)
    (whoisOut : HttpOutcome WhoisBody) (semrushOut : HttpOutcome String)
    (primaryRes googleRes : Except String Int) (d : FinalData)
    (h : getOtherMetrics fromNow toFixedAge tldOf gi options whoisOut semrushOut
      primaryRes googleRes = some (.ok d)) :
    (d.isDNSFound = true → d.isAvailable = false) ∧
    (d.isDNSFound = false → d.whois.status = some "AVAILABLE" → d.isAvailable = true) ∧
    (d.isDNSFound = false →
      (d.whois.status = none ∨ ∃ st, d.whois.status = some st ∧ st ≠ "AVAILABLE") →
      d.isAvailable = false) := by
  obtain ⟨w, s, p, g, _, _, _, _, hd⟩ :=
    getOtherMetrics_ok_inv fromNow toFixedAge tldOf gi options whoisOut semrushOut
      primaryRes googleRes d h
  subst hd
  rw [mergeMetrics_isAvailable, mergeMetrics_isDNSFound, mergeMetrics_whois]
  refine ⟨fun h1 => ?_, fun h1 h2 => ?_, fun h1 h2 => ?_⟩
  · simp [deriveIsAvailable, h1]
  · simp [deriveIsAvailable, h1, h2]
  · rcases h2 with h2 | ⟨st, h2, hne⟩
    · simp [deriveIsAvailable, h1, h2]
    · have hb : (st == "AVAILABLE") = false := beq_eq_false_iff_ne.mpr hne
      simp [deriveIsAvailable, h1, h2, hb]

/-- C1 witness: a concrete completed check with no DNS resolution and the
sentinel whois record has isAvailable=false. -/
theorem c1_witness : c1data.isAvailable = false :=
  (c1_isAvailable_truth_table fNow fAge fTld giPlain optsPlain (.transportError "down")
    (.transportError "down") (.ok 1) (.ok 2) c1data rfl).2.2 rfl (Or.inl rfl)

/-- C2: the claim requires secondaryIndexCount = googleIndexCount minus
primaryIndexCount for every pair of returned counts, including 0.  On the
concrete completed check below, both index calls return a count (primary 0,
google 5), yet the code stores no primaryIndex (0 is falsy in JavaScript)
and sets secondaryIndex to google minus undefined, which is NaN, not 5. -/
theorem c2_zero_count_gives_nan :
    getOtherMetrics fNow fAge fTld giPlain optsPlain (.transportError "down")
      (.transportError "down") (.ok 0) (.ok 5) = some (.ok c2data) ∧
    c2data.primaryIndex = none ∧
    c2data.googleIndex = some 5 ∧
    c2data.secondaryIndex = some JsNum.nan ∧
    JsNum.nan ≠ JsNum.int 5 :=
  ⟨rfl, rfl, rfl, rfl, by decide⟩

/-- C4 counterexample: the claim states that each gating match yields a
record whose every field holds the value no-data, but on the concrete
gated request below the record produced is emptyWhoisData, whose
missingData field holds the string true, not no-data. -/
theorem c4_counterexample :
    getWhoisData fNow fAge giRes optsSkip (.transportError "down") =
      some (.ok emptyWhoisData) ∧
    emptyWhoisData.missingData = JsVal.str "true" ∧
    JsVal.str "true" ≠ JsVal.str "no-data" :=
  ⟨rfl, rfl, by decide⟩

/-- C4 amended: the Registration fetch is gated by the three conditions in
order with first match winning, each short-circuiting to the sentinel
record emptyWhoisData, in which every field holds no-data except
missingData, which holds the string true (and status, which is absent). -/
theorem c4_registration_gating (fromNow : String → String) (toFixedAge : Int → String)
    (gi : GeneralInfo) (options : Options) (out : HttpOutcome WhoisBody) :
    (skipDnsGate gi options = true →
      getWhoisData fromNow toFixedAge gi options out = some (.ok emptyWhoisData)) ∧
    (skipDnsGate gi options = false → trustFlowGate gi options = some true →
      getWhoisData fromNow toFixedAge gi options out = some (.ok emptyWhoisData)) ∧
    (skipDnsGate gi options = false → trustFlowGate gi options = some false →
      whoisCredOk options = false →
      getWhoisData fromNow toFixedAge gi options out = some (.ok emptyWhoisData)) ∧
    emptyWhoisData.isValidDomain = .str "no-data" ∧
    emptyWhoisData.isPendingDelete = .str "no-data" ∧
    emptyWhoisData.isRedemptionPeriod = .str "no-data" ∧
    emptyWhoisData.createdDate = .str "no-data" ∧
    emptyWhoisData.expiresDate = .str "no-data" ∧
    emptyWhoisData.expiredWaitingTime = .str "no-data" ∧
    emptyWhoisData.estimatedDomainAge = .str "no-data" ∧
    emptyWhoisData.missingData = .str "true" ∧
    emptyWhoisData.status = none := by
  refine ⟨fun h1 => ?_, fun h1 h2 => ?_, fun h1 h2 h3 => ?_,
    rfl, rfl, rfl, rfl, rfl, rfl, rfl, rfl, rfl⟩
  · simp [getWhoisData, h1]
  · simp [getWhoisData, h1, h2]
  · simp [getWhoisData, h1, h2, h3]

/-- C4 witness: the first gate fires on a resolved domain with the skip
option set and yields the sentinel record. -/
theorem c4_witness :
    getWhoisData fNow fAge giRes optsSkip (.response 200 wbEmpty) =
      some (.ok emptyWhoisData) :=
  (c4_registration_gating fNow fAge giRes optsSkip (.response 200 wbEmpty)).1 rfl

/-- C5 counterexample: on a request with no authority credential configured
(and with skipDeepChecksIfResolvable set and DNS resolved), the authority
result is the record with ResultCode NO-MAJESTIC-KEY, which differs from
both NO-KEY and NO-CHECK-DNS-RESOLVED claimed by the spec. -/
theorem c5_counterexample :
    getMajesticData giRes optsSkip (.transportError "down") =
      .ok { giRes with majestic := some noMajesticKeyData } ∧
    noMajesticKeyData.ResultCode = "NO-MAJESTIC-KEY" ∧
    ("NO-MAJESTIC-KEY" : String) ≠ "NO-KEY" ∧
    ("NO-MAJESTIC-KEY" : String) ≠ "NO-CHECK-DNS-RESOLVED" :=
  ⟨rfl, rfl, by decide, by decide⟩

/-- C5 amended: with no truthy authority credential the authority result is
exactly the record TrustFlow 0, ResultCode NO-MAJESTIC-KEY; with a truthy
credential, skipDeepChecksIfResolvable set and DNS resolved it is exactly
TrustFlow 0, ResultCode N0-CHECK-DNS-RESOLVED (spelled with a zero digit). -/
theorem c5_authority_sentinels (gi : GeneralInfo) (options : Options)
    (out : HttpOutcome MajesticRec) :
    (jsTruthyOptStr options.majecticKey = false →
      getMajesticData gi options out = .ok { gi with majestic := some noMajesticKeyData }) ∧
    (jsTruthyOptStr options.majecticKey = true → skipDnsGate gi options = true →
      getMajesticData gi options out = .ok { gi with majestic := some noCheckDnsResolvedData }) ∧
    noMajesticKeyData = { TrustFlow := 0, ResultCode := "NO-MAJESTIC-KEY" } ∧
    noCheckDnsResolvedData = { TrustFlow := 0, ResultCode := "N0-CHECK-DNS-RESOLVED" } := by
  refine ⟨fun h1 => ?_, fun h1 h2 => ?_, rfl, rfl⟩
  · simp [getMajesticData, h1]
  · simp [getMajesticData, h1, h2]

/-- C5 witness: a request with no credential gets the NO-MAJESTIC-KEY record. -/
theorem c5_witness :
    getMajesticData giPlain optsPlain (.transportError "down") =
      .ok { giPlain with majestic := some noMajesticKeyData } :=
  (c5_authority_sentinels giPlain optsPlain (.transportError "down")).1 rfl

/-- C9: with no authority credential configured the no-credential record is
returned even if skipDeepChecksIfResolvable is set and the domain resolved,
and the skip-by-gating record is produced only when a credential is
configured: the credential check takes precedence over the gating check. -/
theorem c9_no_key_precedence (gi : GeneralInfo) (options : Options)
    (out : HttpOutcome MajesticRec) :
    (jsTruthyOptStr options.majecticKey = false →
      getMajesticData gi options out = .ok { gi with majestic := some noMajesticKeyData }) ∧
    (∀ d, getMajesticData gi options out = .ok d →
      d.majestic = some noCheckDnsResolvedData →
      jsTruthyOptStr options.majecticKey = true) := by
  constructor
  · intro h1
    simp [getMajesticData, h1]
  · intro d hd hm
    cases hk : jsTruthyOptStr options.majecticKey with
    | true => rfl
    | false =>
      unfold getMajesticData at hd
      rw [hk] at hd
      simp at hd
      rw [← hd] at hm
      simp at hm
      exact absurd hm (by decide)

/-- C9 witness: with no credential, even a non-200 response outcome leaves
the NO-MAJESTIC-KEY record (the provider is not consulted). -/
theorem c9_witness :
    getMajesticData giRes optsPlain (.response 404 mbZero) =
      .ok { giRes with majestic := some noMajesticKeyData } :=
  (c9_no_key_precedence giRes optsPlain (.response 404 mbZero)).1 rfl

/-- C6 counterexample: the claim states the seven parsed fields are numeric,
but on the concrete two-line response below the rank field holds the raw
substring, the string 9, which is not a number. -/
theorem c6_counterexample :
    (convertSemrush c6response).rank = JsVal.str "9" ∧
    ((convertSemrush c6response).rank).isNumeric = false :=
  ⟨rfl, rfl⟩

/-- C6 amended: parsing is total; a response with fewer than two CR-LF
separated lines yields exactly the default record (rank -1, all other
fields 0, all numeric); otherwise the second line is split on the semicolon
and positional fields 1 to 7 map, as the raw substrings of the response
(undefined when the row is short), to rank, oganicKeywords, organicTraffic,
organicCost, adwordsKeywords, adwordsTraffic and adwordsCost. -/
theorem c6_traffic_parse_total (s : String) :
    ((jsSplit s "\r\n").length < 2 → convertSemrush s = emptySemrush) ∧
    (∀ first row rest, jsSplit s "\r\n" = first :: row :: rest →
      convertSemrush s =
        { rank := jsAt (jsSplit row ";") 1
          oganicKeywords := jsAt (jsSplit row ";") 2
          organicTraffic := jsAt (jsSplit row ";") 3
          organicCost := jsAt (jsSplit row ";") 4
          adwordsKeywords := jsAt (jsSplit row ";") 5
          adwordsTraffic := jsAt (jsSplit row ";") 6
          adwordsCost := jsAt (jsSplit row ";") 7 }) ∧
    emptySemrush.rank = JsVal.num (-1) ∧
    emptySemrush.oganicKeywords = JsVal.num 0 ∧
    emptySemrush.organicTraffic = JsVal.num 0 ∧
    emptySemrush.organicCost = JsVal.num 0 ∧
    emptySemrush.adwordsKeywords = JsVal.num 0 ∧
    emptySemrush.adwordsTraffic = JsVal.num 0 ∧
    emptySemrush.adwordsCost = JsVal.num 0 := by
  refine ⟨?_, ?_, rfl, rfl, rfl, rfl, rfl, rfl, rfl⟩
  · intro hlen
    unfold convertSemrush
    cases hsplit : jsSplit s "\r\n" with
    | nil => rfl
    | cons a t =>
      cases t with
      | nil => rfl
      | cons b t2 =>
        rw [hsplit] at hlen
        simp at hlen
        omega
  · intro first row rest heq
    unfold convertSemrush
    rw [heq]

/-- C6 witness: a one-line response maps to the default record. -/
theorem c6_witness : convertSemrush "Dn;Rk;Or;Ot" = emptySemrush :=
  (c6_traffic_parse_total "Dn;Rk;Or;Ot").1 (by decide)

/-- Helper: the whois request callback never passes an error. -/
theorem whoisFetch_ok (fromNow : String → String) (toFixedAge : Int → String)
    (out : HttpOutcome WhoisBody) :
    ∃ w, whoisFetch fromNow toFixedAge out = .ok w := by
  cases out with
  | transportError e => exact ⟨emptyWhoisData, rfl⟩
  | response code body =>
    by_cases hc : (code == 200) = true
    · exact ⟨parseWhois fromNow toFixedAge body, by simp [whoisFetch, hc]⟩
    · exact ⟨emptyWhoisData, by simp [whoisFetch, hc]⟩

/-- C3: a transport failure or non-200 status from the Authority (Majestic)
or Traffic (Semrush) provider fails the check with an error, while a
transport failure or non-200 status from the Registration (whois) provider
never does: it yields the sentinel record and the stage completes; and the
resolution and probe stages never pass an error either. -/
theorem c3_fatal_vs_degraded (fromNow : String → String) (toFixedAge : Int → String)
    (gi : GeneralInfo) (options : Options) (whoisOut : HttpOutcome WhoisBody)
    (e : String) (code : Nat) (wb : WhoisBody) (sb : String) (mb : MajesticRec)
    (dnsOracle : String → Option String) (probe : Option String → Bool) :
    (∀ r, getWhoisData fromNow toFixedAge gi options whoisOut = some r → ∃ w, r = .ok w) ∧
    (whoisFetch fromNow toFixedAge (.transportError e) = .ok emptyWhoisData) ∧
    ((code == 200) = false →
      whoisFetch fromNow toFixedAge (.response code wb) = .ok emptyWhoisData) ∧
    (jsTruthyOptStr options.majecticKey = true → skipDnsGate gi options = false →
      getMajesticData gi options (.transportError e) = .error e) ∧
    (jsTruthyOptStr options.majecticKey = true → skipDnsGate gi options = false →
      (code == 200) = false →
      getMajesticData gi options (.response code mb) =
        .error "Impossible to get the Majestic data, check your credential") ∧
    (semrushFetch (.transportError e) = .error e) ∧
    ((code == 200) = false →
      semrushFetch (.response code sb) =
        .error "Impossible to get the semrush data, check your credential") ∧
    (jsTruthyOptStr options.semrushKey = true → skipDnsGate gi options = false →
      trustFlowGate gi options = some false →
      getSemrushData gi options (.transportError e) = some (.error e)) ∧
    (∃ d1, getIp dnsOracle options.domain = .ok d1) ∧
    (∀ dnsInfo : DnsData, ∃ r2, getPing probe dnsInfo = .ok r2) := by
  refine ⟨?_, rfl, ?_, ?_, ?_, rfl, ?_, ?_, ?_, ?_⟩
  · intro r hr
    unfold getWhoisData at hr
    by_cases h1 : skipDnsGate gi options = true
    · rw [if_pos h1] at hr
      simp at hr
      exact ⟨emptyWhoisData, hr.symm⟩
    · rw [if_neg h1] at hr
      cases h2 : trustFlowGate gi options with
      | none => rw [h2] at hr; simp at hr
      | some b =>
        rw [h2] at hr
        cases b with
        | true =>
          simp at hr
          exact ⟨emptyWhoisData, hr.symm⟩
        | false =>
          by_cases h3 : whoisCredOk options = true
          · rw [if_pos h3] at hr
            simp at hr
            obtain ⟨w, hw⟩ := whoisFetch_ok fromNow toFixedAge whoisOut
            exact ⟨w, hr ▸ hw⟩
          · rw [if_neg h3] at hr
            simp at hr
            exact ⟨emptyWhoisData, hr.symm⟩
  · intro hc
    simp [whoisFetch, hc]
  · intro h1 h2
    simp [getMajesticData, h1, h2]
  · intro h1 h2 hc
    simp [getMajesticData, h1, h2, hc]
  · intro hc
    simp [semrushFetch, hc]
  · intro h1 h2 h3
    simp [getSemrushData, h1, h2, h3, semrushFetch]
  · cases hfound : (lookup dnsOracle options.domain false).isDNSFound with
    | true => exact ⟨lookup dnsOracle options.domain false, by simp [getIp, hfound]⟩
    | false => exact ⟨lookup dnsOracle options.domain true, by simp [getIp, hfound]⟩
  · intro dnsInfo
    cases hfound : dnsInfo.isDNSFound with
    | true =>
      exact ⟨({ toDnsData := dnsInfo, isAlive := probe dnsInfo.ip }, 1),
        by simp [getPing, hfound]⟩
    | false =>
      exact ⟨({ toDnsData := dnsInfo, isAlive := false }, 0), by simp [getPing, hfound]⟩

/-- C3 witness: a transport error from the Majestic provider is fatal on a
concrete request with a truthy key and no gating skip. -/
theorem c3_witness : getMajesticData giRes optsMaj (.transportError "down") = .error "down" :=
  (c3_fatal_vs_degraded fNow fAge giRes optsMaj (.transportError "down") "down" 500 wbEmpty
    "" mbZero dnsNone probeFalse).2.2.2.1 rfl rfl

/-- Helper: every ok result of getMajesticData carries a defined majestic
field (each success branch of the source assigns it). -/
theorem getMajesticData_sets_majestic (gi : GeneralInfo) (options : Options)
    (out : HttpOutcome MajesticRec) (d : GeneralInfo)
    (hd : getMajesticData gi options out = .ok d) : d.majestic.isSome = true := by
  unfold getMajesticData at hd
  by_cases h1 : jsTruthyOptStr options.majecticKey = true
  · rw [if_pos h1] at hd
    by_cases h2 : skipDnsGate gi options = true
    · rw [if_pos h2] at hd
      simp at hd
      rw [← hd]
      rfl
    · rw [if_neg h2] at hd
      cases out with
      | transportError e => simp at hd
      | response code body =>
        by_cases hc : (code == 200) = true
        · simp [hc] at hd
          rw [← hd]
          rfl
        · simp [hc] at hd
  · rw [if_neg h1] at hd
    simp at hd
    rw [← hd]
    rfl

/-- Helper: the trust-flow gate evaluates without a TypeError whenever the
majestic field is defined. -/
theorem trustFlowGate_isSome (gi : GeneralInfo) (options : Options)
    (h : gi.majestic.isSome = true) : (trustFlowGate gi options).isSome = true := by
  cases hmt : options.minTrustFlow with
  | none => simp [trustFlowGate, hmt]
  | some t =>
    cases hm : gi.majestic with
    | none => rw [hm] at h; simp at h
    | some m =>
      by_cases ht : (t != 0) = true
      · simp [trustFlowGate, hmt, hm, ht]
      · simp [trustFlowGate, hmt, hm, ht]

/-- Helper: getWhoisData never crashes when the majestic field is defined. -/
theorem getWhoisData_isSome (fromNow : String → String) (toFixedAge : Int → String)
    (gi : GeneralInfo) (options : Options) (out : HttpOutcome WhoisBody)
    (h : gi.majestic.isSome = true) :
    (getWhoisData fromNow toFixedAge gi options out).isSome = true := by
  unfold getWhoisData
  by_cases h1 : skipDnsGate gi options = true
  · rw [if_pos h1]; rfl
  · rw [if_neg h1]
    cases hg : trustFlowGate gi options with
    | none =>
      have := trustFlowGate_isSome gi options h
      rw [hg] at this
      simp at this
    | some b =>
      cases b with
      | true => rfl
      | false =>
        by_cases h3 : whoisCredOk options = true
        · rw [if_pos h3]; rfl
        · rw [if_neg h3]; rfl

/-- Helper: getSemrushData never crashes when the majestic field is defined. -/
theorem getSemrushData_isSome (gi : GeneralInfo) (options : Options)
    (out : HttpOutcome String) (h : gi.majestic.isSome = true) :
    (getSemrushData gi options out).isSome = true := by
  unfold getSemrushData
  by_cases h0 : jsTruthyOptStr options.semrushKey = true
  · rw [if_pos h0]
    by_cases h1 : skipDnsGate gi options = true
    · rw [if_pos h1]; rfl
    · rw [if_neg h1]
      cases hg : trustFlowGate gi options with
      | none =>
        have := trustFlowGate_isSome gi options h
        rw [hg] at this
        simp at this
      | some b => cases b with
        | true => rfl
        | false => rfl
  · rw [if_neg h0]; rfl

/-- C10: whenever the parallel fetch stage runs, the record threaded into it
carries a defined authority (majestic) object, so the minimum-authority
gating reads in the Registration and Traffic fetchers never hit an absent
field: the whole check never crashes on that read. -/
theorem c10_authority_always_defined (dnsOracle : String → Option String)
    (probe : Option String → Bool) (majesticOut : HttpOutcome MajesticRec)
    (whoisOut : HttpOutcome WhoisBody) (semrushOut : HttpOutcome String)
    (serpSearch : String → Except String Int) (fromNow : String → String)
    (toFixedAge : Int → String) (tldOf : String → String) (options : Options)
    (gi gi2 : GeneralInfo) (out2 : HttpOutcome MajesticRec) :
    (∀ d, getMajesticData gi options out2 = .ok d → d.majestic.isSome = true) ∧
    (gi2.majestic.isSome = true →
      (getWhoisData fromNow toFixedAge gi2 options whoisOut).isSome = true ∧
      (getSemrushData gi2 options semrushOut).isSome = true) ∧
    (check dnsOracle probe majesticOut whoisOut semrushOut serpSearch fromNow toFixedAge
      tldOf options).isSome = true := by
  refine ⟨fun d hd => getMajesticData_sets_majestic gi options out2 d hd,
    fun h2 => ⟨getWhoisData_isSome fromNow toFixedAge gi2 options whoisOut h2,
      getSemrushData_isSome gi2 options semrushOut h2⟩, ?_⟩
  unfold check
  cases hip : getIp dnsOracle options.domain with
  | error e => rfl
  | ok dnsInfo =>
    dsimp only
    cases hping : getPing probe dnsInfo with
    | error e => rfl
    | ok pr =>
      cases pr with
      | mk pingInfo n =>
        dsimp only
        cases hmaj : getMajesticData { toPingData := pingInfo, majestic := none }
            options majesticOut with
        | error e => rfl
        | ok gi3 =>
          dsimp only
          have hm : gi3.majestic.isSome = true :=
            getMajesticData_sets_majestic _ options majesticOut gi3 hmaj
          unfold getOtherMetrics
          cases hw2 : getWhoisData fromNow toFixedAge gi3 options whoisOut with
          | none =>
            have := getWhoisData_isSome fromNow toFixedAge gi3 options whoisOut hm
            rw [hw2] at this
            simp at this
          | some wr =>
            cases hs2 : getSemrushData gi3 options semrushOut with
            | none =>
              have := getSemrushData_isSome gi3 options semrushOut hm
              rw [hs2] at this
              simp at this
            | some sr => rfl

/-- C10 witness: on a concrete no-credential request the authority stage
returns a record whose majestic field is defined. -/
theorem c10_witness : giNoKey.majestic.isSome = true :=
  (c10_authority_always_defined dnsNone probeFalse (.transportError "down")
    (.transportError "down") (.transportError "down") serpTwo fNow fAge fTld optsPlain
    giPlain giNoKey (.transportError "down")).1 giNoKey rfl

end CheckDomain
